import Mathlib

/-!
Shallow embedding of `src/cdk/ecs.py` (class `HealthCheckConfig`): derived
health-check timing bounds and the three validated configuration derivations
for an ECS service fronted by an ALB.

Python `int` fields are modelled as `Int`; the float expression
`check_interval_alb * 0.2` is modelled exactly in `ℚ` (for the magnitudes
involved the IEEE-754 computation agrees with exact rational arithmetic),
and `math.floor` is `Int.floor`. Exceptions (`raise ValueError`) are
modelled as `Except` with one error constructor per raise site.
-/

namespace Micromachines

/-- ELB health-check protocol (`aws_elasticloadbalancingv2.Protocol`);
only the constructors relevant to the embedded code. -/
inductive ElbProtocol
  | HTTP
  | HTTPS
  deriving DecidableEq

/-- The configuration record (`HealthCheckConfig` attrs class), with the
source's default values. -/
structure HealthCheckConfig where
  max_container_startup : Int := 30
  timeout : Int := 5
  check_interval_ecs : Int := 10
  check_interval_alb : Int := 30
  num_checks_ecs : Int := 2
  num_checks_alb : Int := 5
  endpoint_path : String := "/"
  container_port : Int := 8000
  deriving DecidableEq

/-- The local `min_check_interval` computed inside
`min_time_to_unhealthy_alb`:
`math.floor(check_interval_alb - max(2, check_interval_alb * 0.2))`. -/
def min_check_interval (c : HealthCheckConfig) : Int :=
  Int.floor ((c.check_interval_alb : ℚ) - max 2 ((c.check_interval_alb : ℚ) * 0.2))

/-- Property `min_time_to_unhealthy_alb`: the shortest time in which ALB
could detect that a task is unhealthy. -/
def min_time_to_unhealthy_alb (c : HealthCheckConfig) : Int :=
  (c.num_checks_alb - 1) * min_check_interval c

/-- The local `actual_check_interval` computed inside
`max_time_to_unhealthy_ecs`: `(timeout + 1) + check_interval_ecs`. -/
def actual_check_interval (c : HealthCheckConfig) : Int :=
  (c.timeout + 1) + c.check_interval_ecs

/-- Property `max_time_to_unhealthy_ecs`: the longest time ECS could take
to detect that a task is unhealthy. -/
def max_time_to_unhealthy_ecs (c : HealthCheckConfig) : Int :=
  c.max_container_startup + actual_check_interval c
    + (c.num_checks_ecs - 1) * actual_check_interval c

/-- One constructor per `raise ValueError(...)` site in the source. -/
inductive ValidationError
  | TimeoutExceedsIntervalAlb
  | RaceConditionRisk
  | TimeoutExceedsIntervalEcs
  | GracePeriodTooLong
  deriving DecidableEq

/-- The `ElbHealthCheck` value built by `get_alb_config`.
`healthy_threshold_count` is kept as an `Option` to record that the source
deliberately leaves it unset. -/
structure ElbHealthCheck where
  healthy_threshold_count : Option Int
  interval : Int
  path : String
  port : Option Int
  protocol : ElbProtocol
  timeout : Int
  unhealthy_threshold_count : Int
  deriving DecidableEq

/-- `HealthCheckConfig.get_alb_config(protocol=ElbProtocol.HTTP, port=None)`. -/
def get_alb_config (c : HealthCheckConfig) (protocol : ElbProtocol)
    (port : Option Int) : Except ValidationError ElbHealthCheck :=
  if c.timeout ≥ c.check_interval_alb then
    Except.error ValidationError.TimeoutExceedsIntervalAlb
  else if min_time_to_unhealthy_alb c + 30 < max_time_to_unhealthy_ecs c then
    Except.error ValidationError.RaceConditionRisk
  else
    Except.ok
      { healthy_threshold_count := none
        interval := c.check_interval_alb
        path := c.endpoint_path
        port := port
        protocol := protocol
        timeout := c.timeout
        unhealthy_threshold_count := c.num_checks_alb }

/-- The `EcsHealthCheck` value built by `get_ecs_config`. -/
structure EcsHealthCheck where
  command : List String
  interval : Int
  retries : Int
  start_period : Int
  timeout : Int
  deriving DecidableEq

/-- The default `wget` probe command string synthesised by `get_ecs_config`
when no command is supplied. -/
def default_health_command (c : HealthCheckConfig) : String :=
  "wget -T " ++ toString c.timeout ++ " -O - \"http://localhost:"
    ++ toString c.container_port ++ c.endpoint_path ++ "\""

/-- `HealthCheckConfig.get_ecs_config(command=None)`. A `none` or empty
command (both falsy in `if not command`) selects the default probe. -/
def get_ecs_config (c : HealthCheckConfig) (command : Option String) :
    Except ValidationError EcsHealthCheck :=
  if c.timeout ≥ c.check_interval_ecs then
    Except.error ValidationError.TimeoutExceedsIntervalEcs
  else
    let cmd : String :=
      match command with
      | none => default_health_command c
      | some s => if s = "" then default_health_command c else s
    Except.ok
      { command := [cmd ++ " || exit 1"]
        interval := c.check_interval_ecs
        retries := c.num_checks_ecs
        start_period := c.max_container_startup
        timeout := c.timeout + 1 }

/-- The hard-coded ECS service grace period (`grace_period = 10`). -/
def grace_period : Int := 10

/-- The `dict` returned by `get_ecs_service_properties`: only
`health_check_grace_period` is set; the healthy-percentage knobs are
deliberately absent (modelled as `Option` fields fixed to `none`). -/
structure EcsServiceProperties where
  health_check_grace_period : Int
  min_healthy_percent : Option Int
  max_healthy_percent : Option Int
  deriving DecidableEq

/-- `HealthCheckConfig.get_ecs_service_properties()`. -/
def get_ecs_service_properties (c : HealthCheckConfig) :
    Except ValidationError EcsServiceProperties :=
  if min_time_to_unhealthy_alb c < grace_period then
    Except.error ValidationError.GracePeriodTooLong
  else
    Except.ok
      { health_check_grace_period := grace_period
        min_healthy_percent := none
        max_healthy_percent := none }

/-- All integer fields of the configuration are non-negative (the spec's
"all non-negative integers" data-model constraint). -/
def NonnegConfig (c : HealthCheckConfig) : Prop :=
  0 ≤ c.max_container_startup ∧ 0 ≤ c.timeout ∧ 0 ≤ c.check_interval_ecs
    ∧ 0 ≤ c.check_interval_alb ∧ 0 ≤ c.num_checks_ecs ∧ 0 ≤ c.num_checks_alb
    ∧ 0 ≤ c.container_port

instance (c : HealthCheckConfig) : Decidable (NonnegConfig c) := by
  unfold NonnegConfig; infer_instance

/-! Helper lemmas about the ALB minimum check interval. -/

lemma min_check_interval_le (c c' : HealthCheckConfig)
    (h : c.check_interval_alb ≤ c'.check_interval_alb) :
    min_check_interval c ≤ min_check_interval c' := by
  unfold min_check_interval
  apply Int.floor_le_floor
  have hab : (c.check_interval_alb : ℚ) ≤ (c'.check_interval_alb : ℚ) := by
    exact_mod_cast h
  have h1 : max 2 ((c'.check_interval_alb : ℚ) * 0.2)
      ≤ max 2 ((c.check_interval_alb : ℚ) * 0.2)
        + ((c'.check_interval_alb : ℚ) - (c.check_interval_alb : ℚ)) := by
    apply max_le
    · have := le_max_left (2 : ℚ) ((c.check_interval_alb : ℚ) * 0.2)
      linarith
    · have := le_max_right (2 : ℚ) ((c.check_interval_alb : ℚ) * 0.2)
      nlinarith
  linarith

lemma min_check_interval_nonneg (c : HealthCheckConfig)
    (h : 2 ≤ c.check_interval_alb) : 0 ≤ min_check_interval c := by
  unfold min_check_interval
  rw [Int.le_floor]
  have h2 : (2 : ℚ) ≤ (c.check_interval_alb : ℚ) := by exact_mod_cast h
  have : max 2 ((c.check_interval_alb : ℚ) * 0.2) ≤ (c.check_interval_alb : ℚ) := by
    apply max_le h2
    nlinarith
  push_cast
  linarith

/-! Claim theorems. -/

/-- C1: get_alb_config fails exactly when one of its two validations is
violated: it returns the timeout-exceeds-interval error exactly when
timeout ≥ check_interval_alb (checked first), the race-condition error
exactly when the timeout check passes but
min_time_to_unhealthy_alb + 30 < max_time_to_unhealthy_ecs, and otherwise
returns the ALB health check with interval = check_interval_alb,
timeout = timeout, path = endpoint_path, unhealthy threshold =
num_checks_alb, and no healthy threshold set. In particular, timeout = 31
with check_interval_alb = 30 fails with the timeout error. -/
theorem claim_C1 (c : HealthCheckConfig) (pr : ElbProtocol) (po : Option Int) :
    (get_alb_config c pr po = Except.error ValidationError.TimeoutExceedsIntervalAlb
      ↔ c.check_interval_alb ≤ c.timeout)
  ∧ (get_alb_config c pr po = Except.error ValidationError.RaceConditionRisk
      ↔ c.timeout < c.check_interval_alb
        ∧ min_time_to_unhealthy_alb c + 30 < max_time_to_unhealthy_ecs c)
  ∧ (get_alb_config c pr po = Except.ok
        { healthy_threshold_count := none
          interval := c.check_interval_alb
          path := c.endpoint_path
          port := po
          protocol := pr
          timeout := c.timeout
          unhealthy_threshold_count := c.num_checks_alb }
      ↔ c.timeout < c.check_interval_alb
        ∧ max_time_to_unhealthy_ecs c ≤ min_time_to_unhealthy_alb c + 30)
  ∧ get_alb_config { timeout := 31, check_interval_alb := 30 } pr po
      = Except.error ValidationError.TimeoutExceedsIntervalAlb := by
  refine ⟨?_, ?_, ?_, ?_⟩
  · unfold get_alb_config
    split_ifs with h1 h2 <;> simp <;> omega
  · unfold get_alb_config
    split_ifs with h1 h2 <;> simp <;> omega
  · unfold get_alb_config
    split_ifs with h1 h2 <;> simp <;> omega
  · unfold get_alb_config
    norm_num

/-- C2: min_time_to_unhealthy_alb equals
(num_checks_alb - 1) * floor(check_interval_alb - max(2, check_interval_alb * 0.2))
for every configuration; on the default configuration the effective
interval is 24 and the bound is 96. -/
theorem claim_C2 :
    (∀ c : HealthCheckConfig, min_time_to_unhealthy_alb c
      = (c.num_checks_alb - 1)
        * Int.floor ((c.check_interval_alb : ℚ) - max 2 ((c.check_interval_alb : ℚ) * 0.2)))
  ∧ min_check_interval ({} : HealthCheckConfig) = 24
  ∧ min_time_to_unhealthy_alb ({} : HealthCheckConfig) = 96 := by
  refine ⟨fun c => rfl, ?_, ?_⟩
  · unfold min_check_interval
    norm_num
  · unfold min_time_to_unhealthy_alb min_check_interval
    norm_num

/-- C3: max_time_to_unhealthy_ecs equals
max_container_startup + actual_interval + (num_checks_ecs - 1) * actual_interval
with actual_interval = (timeout + 1) + check_interval_ecs, for every
configuration; on the default configuration the actual interval is 16 and
the bound is 62. -/
theorem claim_C3 :
    (∀ c : HealthCheckConfig, actual_check_interval c = (c.timeout + 1) + c.check_interval_ecs)
  ∧ (∀ c : HealthCheckConfig, max_time_to_unhealthy_ecs c
      = c.max_container_startup + actual_check_interval c
        + (c.num_checks_ecs - 1) * actual_check_interval c)
  ∧ actual_check_interval ({} : HealthCheckConfig) = 16
  ∧ max_time_to_unhealthy_ecs ({} : HealthCheckConfig) = 62 := by
  refine ⟨fun c => rfl, fun c => rfl, by decide, ?_⟩
  unfold max_time_to_unhealthy_ecs actual_check_interval
  norm_num

/-- C4: get_ecs_service_properties uses the hard-coded 10-second grace
period, fails with the grace-period error exactly when
min_time_to_unhealthy_alb < 10, and otherwise returns only the 10-second
grace period with no other service-level knobs set. -/
theorem claim_C4 (c : HealthCheckConfig) :
    grace_period = 10
  ∧ (get_ecs_service_properties c = Except.error ValidationError.GracePeriodTooLong
      ↔ min_time_to_unhealthy_alb c < 10)
  ∧ (get_ecs_service_properties c = Except.ok
        { health_check_grace_period := 10
          min_healthy_percent := none
          max_healthy_percent := none }
      ↔ 10 ≤ min_time_to_unhealthy_alb c) := by
  refine ⟨rfl, ?_, ?_⟩ <;> unfold get_ecs_service_properties grace_period <;>
    split_ifs with h <;> simp <;> omega

/-- C5: get_ecs_config rejects exactly when timeout ≥ check_interval_ecs,
and otherwise returns a probe configuration with
interval = check_interval_ecs, retries = num_checks_ecs,
start period = max_container_startup, and harness timeout = timeout + 1. -/
theorem claim_C5 (c : HealthCheckConfig) (cmd : Option String) :
    (get_ecs_config c cmd = Except.error ValidationError.TimeoutExceedsIntervalEcs
      ↔ c.check_interval_ecs ≤ c.timeout)
  ∧ (∀ hc : EcsHealthCheck, get_ecs_config c cmd = Except.ok hc →
      hc.interval = c.check_interval_ecs
      ∧ hc.retries = c.num_checks_ecs
      ∧ hc.start_period = c.max_container_startup
      ∧ hc.timeout = c.timeout + 1)
  ∧ (c.timeout < c.check_interval_ecs → (get_ecs_config c cmd).isOk = true) := by
  refine ⟨?_, ?_, ?_⟩
  · unfold get_ecs_config
    split_ifs with h <;> simp <;> omega
  · intro hc hok
    unfold get_ecs_config at hok
    split_ifs at hok with h
    simp at hok
    subst hok
    exact ⟨rfl, rfl, rfl, rfl⟩
  · intro h
    unfold get_ecs_config
    split_ifs with h1
    · omega
    · simp [Except.isOk, Except.toBool]

/-- Witness for C5 at the default configuration. -/
theorem claim_C5_witness :
    ({} : HealthCheckConfig).timeout < ({} : HealthCheckConfig).check_interval_ecs
  ∧ (get_ecs_config {} none).isOk = true :=
  ⟨by decide, (claim_C5 {} none).2.2 (by decide)⟩

/-- C6: whenever timeout < check_interval_alb, timeout < check_interval_ecs,
the race margin holds (min bound + 30 ≥ max bound) and the minimum ALB
bound is at least the grace period, all three derivations succeed. -/
theorem claim_C6 (c : HealthCheckConfig) (pr : ElbProtocol) (po : Option Int)
    (cmd : Option String)
    (h1 : c.timeout < c.check_interval_alb)
    (h2 : c.timeout < c.check_interval_ecs)
    (h3 : max_time_to_unhealthy_ecs c ≤ min_time_to_unhealthy_alb c + 30)
    (h4 : grace_period ≤ min_time_to_unhealthy_alb c) :
    (get_alb_config c pr po).isOk = true
  ∧ (get_ecs_config c cmd).isOk = true
  ∧ (get_ecs_service_properties c).isOk = true := by
  unfold grace_period at h4
  refine ⟨?_, ?_, ?_⟩
  · unfold get_alb_config
    split_ifs with g1 g2
    · omega
    · omega
    · simp [Except.isOk, Except.toBool]
  · unfold get_ecs_config
    split_ifs with g1
    · omega
    · simp [Except.isOk, Except.toBool]
  · unfold get_ecs_service_properties grace_period
    split_ifs with g1
    · omega
    · simp [Except.isOk, Except.toBool]

/-- Witness for C6 at the default configuration. -/
theorem claim_C6_witness :
    ({} : HealthCheckConfig).timeout < ({} : HealthCheckConfig).check_interval_alb
  ∧ ({} : HealthCheckConfig).timeout < ({} : HealthCheckConfig).check_interval_ecs
  ∧ max_time_to_unhealthy_ecs {} ≤ min_time_to_unhealthy_alb {} + 30
  ∧ grace_period ≤ min_time_to_unhealthy_alb {}
  ∧ ((get_alb_config {} ElbProtocol.HTTP none).isOk = true
      ∧ (get_ecs_config {} none).isOk = true
      ∧ (get_ecs_service_properties {} ).isOk = true) := by
  have hmin : min_time_to_unhealthy_alb ({} : HealthCheckConfig) = 96 := by
    unfold min_time_to_unhealthy_alb min_check_interval
    norm_num
  have hmax : max_time_to_unhealthy_ecs ({} : HealthCheckConfig) = 62 := by
    unfold max_time_to_unhealthy_ecs actual_check_interval
    norm_num
  refine ⟨by decide, by decide, by rw [hmin, hmax]; norm_num,
    by rw [hmin]; norm_num [grace_period], ?_⟩
  exact claim_C6 {} ElbProtocol.HTTP none none (by decide) (by decide)
    (by rw [hmin, hmax]; norm_num) (by rw [hmin]; norm_num [grace_period])

/-- C7 fails as stated: with all fields non-negative,
min_time_to_unhealthy_alb is not monotone in num_checks_alb when
check_interval_alb < 2 (the effective interval is negative), and not
monotone in check_interval_alb when num_checks_alb = 0 (the factor
num_checks_alb - 1 is negative). -/
theorem claim_C7_counterexample :
    (NonnegConfig { check_interval_alb := 1, num_checks_alb := 1 }
      ∧ NonnegConfig { check_interval_alb := 1, num_checks_alb := 2 }
      ∧ ({ check_interval_alb := 1, num_checks_alb := 1 } : HealthCheckConfig).num_checks_alb
          ≤ ({ check_interval_alb := 1, num_checks_alb := 2 } : HealthCheckConfig).num_checks_alb
      ∧ min_time_to_unhealthy_alb { check_interval_alb := 1, num_checks_alb := 2 }
          < min_time_to_unhealthy_alb { check_interval_alb := 1, num_checks_alb := 1 })
  ∧ (NonnegConfig { check_interval_alb := 2, num_checks_alb := 0 }
      ∧ NonnegConfig { check_interval_alb := 30, num_checks_alb := 0 }
      ∧ ({ check_interval_alb := 2, num_checks_alb := 0 } : HealthCheckConfig).check_interval_alb
          ≤ ({ check_interval_alb := 30, num_checks_alb := 0 } : HealthCheckConfig).check_interval_alb
      ∧ min_time_to_unhealthy_alb { check_interval_alb := 30, num_checks_alb := 0 }
          < min_time_to_unhealthy_alb { check_interval_alb := 2, num_checks_alb := 0 }) := by
  constructor
  · refine ⟨by decide, by decide, by decide, ?_⟩
    unfold min_time_to_unhealthy_alb min_check_interval
    norm_num
  · refine ⟨by decide, by decide, by decide, ?_⟩
    unfold min_time_to_unhealthy_alb min_check_interval
    norm_num

/-- C7 (amended): for non-negative configurations,
min_time_to_unhealthy_alb is monotonically non-decreasing in
num_checks_alb provided check_interval_alb ≥ 2, and monotonically
non-decreasing in check_interval_alb provided num_checks_alb ≥ 1. -/
theorem claim_C7_amended :
    (∀ (c : HealthCheckConfig) (n n' : Int), NonnegConfig c →
      2 ≤ c.check_interval_alb → 0 ≤ n → n ≤ n' →
      min_time_to_unhealthy_alb { c with num_checks_alb := n }
        ≤ min_time_to_unhealthy_alb { c with num_checks_alb := n' })
  ∧ (∀ (c : HealthCheckConfig) (a a' : Int), NonnegConfig c →
      1 ≤ c.num_checks_alb → 0 ≤ a → a ≤ a' →
      min_time_to_unhealthy_alb { c with check_interval_alb := a }
        ≤ min_time_to_unhealthy_alb { c with check_interval_alb := a' }) := by
  constructor
  · intro c n n' _ h2 hn hnn
    unfold min_time_to_unhealthy_alb
    have he : min_check_interval { c with num_checks_alb := n } = min_check_interval c := rfl
    have he' : min_check_interval { c with num_checks_alb := n' } = min_check_interval c := rfl
    rw [he, he']
    have hpos : 0 ≤ min_check_interval c := min_check_interval_nonneg c h2
    apply mul_le_mul_of_nonneg_right _ hpos
    show n - 1 ≤ n' - 1
    omega
  · intro c a a' _ hnum h0 haa
    unfold min_time_to_unhealthy_alb
    have hmono : min_check_interval { c with check_interval_alb := a }
        ≤ min_check_interval { c with check_interval_alb := a' } :=
      min_check_interval_le _ _ haa
    apply mul_le_mul_of_nonneg_left hmono
    show 0 ≤ c.num_checks_alb - 1
    omega

/-- Witness for the amended C7 at concrete configurations. -/
theorem claim_C7_amended_witness :
    (NonnegConfig ({} : HealthCheckConfig)
      ∧ 2 ≤ ({} : HealthCheckConfig).check_interval_alb
      ∧ (0 : Int) ≤ 2 ∧ (2 : Int) ≤ 3
      ∧ min_time_to_unhealthy_alb { num_checks_alb := 2 }
          ≤ min_time_to_unhealthy_alb { num_checks_alb := 3 })
  ∧ (NonnegConfig ({} : HealthCheckConfig)
      ∧ 1 ≤ ({} : HealthCheckConfig).num_checks_alb
      ∧ (0 : Int) ≤ 10 ∧ (10 : Int) ≤ 20
      ∧ min_time_to_unhealthy_alb { check_interval_alb := 10 }
          ≤ min_time_to_unhealthy_alb { check_interval_alb := 20 }) :=
  ⟨⟨by decide, by decide, by decide, by decide,
      claim_C7_amended.1 {} 2 3 (by decide) (by decide) (by decide) (by decide)⟩,
    ⟨by decide, by decide, by decide, by decide,
      claim_C7_amended.2 {} 10 20 (by decide) (by decide) (by decide) (by decide)⟩⟩

/-- C8: for non-negative configurations, max_time_to_unhealthy_ecs is
monotonically non-decreasing in each of num_checks_ecs,
check_interval_ecs, timeout, and max_container_startup. -/
theorem claim_C8 (c : HealthCheckConfig) (hc : NonnegConfig c) :
    (∀ n n' : Int, 0 ≤ n → n ≤ n' →
      max_time_to_unhealthy_ecs { c with num_checks_ecs := n }
        ≤ max_time_to_unhealthy_ecs { c with num_checks_ecs := n' })
  ∧ (∀ i i' : Int, 0 ≤ i → i ≤ i' →
      max_time_to_unhealthy_ecs { c with check_interval_ecs := i }
        ≤ max_time_to_unhealthy_ecs { c with check_interval_ecs := i' })
  ∧ (∀ t t' : Int, 0 ≤ t → t ≤ t' →
      max_time_to_unhealthy_ecs { c with timeout := t }
        ≤ max_time_to_unhealthy_ecs { c with timeout := t' })
  ∧ (∀ s s' : Int, 0 ≤ s → s ≤ s' →
      max_time_to_unhealthy_ecs { c with max_container_startup := s }
        ≤ max_time_to_unhealthy_ecs { c with max_container_startup := s' }) := by
  obtain ⟨hs, ht, hi, ha, hn, hna, hp⟩ := hc
  obtain ⟨s, t, i, a, n, na, path, port⟩ := c
  simp only at hs ht hi hn ⊢
  refine ⟨?_, ?_, ?_, ?_⟩ <;>
    intro x x' hx hxx <;>
    unfold max_time_to_unhealthy_ecs actual_check_interval <;>
    simp only <;>
    nlinarith [mul_nonneg hx (sub_nonneg.mpr hxx), mul_nonneg hn (sub_nonneg.mpr hxx)]

/-- Witness for C8 at the default configuration. -/
theorem claim_C8_witness :
    NonnegConfig ({} : HealthCheckConfig)
  ∧ (0 : Int) ≤ 2 ∧ (2 : Int) ≤ 4
  ∧ max_time_to_unhealthy_ecs { num_checks_ecs := 2 }
      ≤ max_time_to_unhealthy_ecs { num_checks_ecs := 4 } :=
  ⟨by decide, by decide, by decide,
    (claim_C8 {} (by decide)).1 2 4 (by decide) (by decide)⟩

/-- C9: with num_checks_alb = 1 the minimum ALB bound is 0, so
get_ecs_service_properties always fails with the grace-period error,
whatever the other fields are. -/
theorem claim_C9 (c : HealthCheckConfig) (h : c.num_checks_alb = 1) :
    min_time_to_unhealthy_alb c = 0
  ∧ get_ecs_service_properties c = Except.error ValidationError.GracePeriodTooLong := by
  have h0 : min_time_to_unhealthy_alb c = 0 := by
    unfold min_time_to_unhealthy_alb
    rw [h]
    ring
  refine ⟨h0, ?_⟩
  unfold get_ecs_service_properties grace_period
  rw [h0]
  norm_num

/-- Witness for C9 at a concrete configuration. -/
theorem claim_C9_witness :
    ({ num_checks_alb := 1 } : HealthCheckConfig).num_checks_alb = 1
  ∧ (min_time_to_unhealthy_alb { num_checks_alb := 1 } = 0
      ∧ get_ecs_service_properties { num_checks_alb := 1 }
          = Except.error ValidationError.GracePeriodTooLong) :=
  ⟨rfl, claim_C9 { num_checks_alb := 1 } rfl⟩

/-- C10: with check_interval_alb = 1 (other fields default, so
num_checks_alb = 5) the minimum ALB bound is the negative number -4,
and the effective check interval is negative for every configuration
with 0 ≤ check_interval_alb < 2. -/
theorem claim_C10 :
    min_time_to_unhealthy_alb { check_interval_alb := 1 } = -4
  ∧ min_time_to_unhealthy_alb { check_interval_alb := 1 } < 0
  ∧ (∀ c : HealthCheckConfig, 0 ≤ c.check_interval_alb → c.check_interval_alb < 2 →
      min_check_interval c < 0) := by
  have h1 : min_time_to_unhealthy_alb ({ check_interval_alb := 1 } : HealthCheckConfig) = -4 := by
    unfold min_time_to_unhealthy_alb min_check_interval
    norm_num
  refine ⟨h1, by rw [h1]; norm_num, ?_⟩
  intro c h0 h2
  unfold min_check_interval
  have : c.check_interval_alb = 0 ∨ c.check_interval_alb = 1 := by omega
  rcases this with h | h <;> rw [h] <;> norm_num

/-- Witness for C10 at a concrete configuration. -/
theorem claim_C10_witness :
    (0 ≤ ({ check_interval_alb := 1 } : HealthCheckConfig).check_interval_alb
      ∧ ({ check_interval_alb := 1 } : HealthCheckConfig).check_interval_alb < 2)
  ∧ min_check_interval { check_interval_alb := 1 } < 0 :=
  ⟨by decide, claim_C10.2.2 { check_interval_alb := 1 } (by decide) (by decide)⟩

end Micromachines
